import Mathlib

/-!
Verification of the EEVEE light-probe baking scheduler
(source/blender/draw/engines/eevee/eevee_lightprobes.c).

The development shallowly embeds the scheduler state and the per-frame entry
points as pure Lean functions.  GPU submissions (cube captures, filter passes,
irradiance double-buffer swaps, redraw requests) are recorded as an event
trace, the machine floats of the glossy filter are modelled as rationals, and
the sentinel-terminated reference arrays are modelled as lists holding the
registered (non-world) probes of slots 1 and up, in registry order.  The loop
bounds MAX_GRID and MAX_PROBE come from eevee_private.h, which is not part of
this source file, and are modelled as the header constants 64 and 128.
-/

namespace Eevee

/-- Per-object engine bake state, EEVEE_LightProbeEngineData:
need_update / updated_cells / probe_id / ready_to_shade, plus num_cell
(the cached grid_resolution_x * y * z product computed in cache_add). -/
structure Ped where
  need_update : Bool
  updated_cells : Nat
  probe_id : Nat
  ready_to_shade : Bool
  num_cell : Nat
  deriving DecidableEq, Repr

/-- Probe kind tag: LIGHTPROBE_TYPE_CUBE or LIGHTPROBE_TYPE_GRID. -/
inductive ProbeType where
  | cube
  | grid
  deriving DecidableEq, Repr

/-- Registered grid probe as seen by the refresh scheduler: its engine bake
data together with the atlas cell offset stored in EEVEE_LightGrid.offset. -/
structure GridObj where
  ped : Ped
  offset : Nat
  deriving DecidableEq, Repr

/-- GPU-side effects performed by one invocation of the refresh entry point,
recorded in submission order.  gridCellCapture carries the grid slot index
and the captured flattened cell index; cubeCapture carries the cube slot
index (also the atlas layer passed to the glossy filter). -/
inductive Ev where
  | worldCapture : Ev
  | glossyFilter : Nat → Ev
  | diffuseFilter : Nat → Ev
  | swapIrradiance : Ev
  | gridCellCapture : Nat → Nat → Ev
  | cubeCapture : Nat → Ev
  | redraw : Ev
  deriving DecidableEq, Repr

/-- State read and written by EEVEE_lightprobes_refresh: the e_data world
flags, the EEVEE_LightProbesInfo counters, the registered grid and cube
probes (slots 1.., in registry order), and which of the two irradiance
textures currently plays the pool role (the double-buffer orientation). -/
structure RState where
  update_world : Bool
  world_ready_to_shade : Bool
  num_grid : Nat
  num_render_cube : Nat
  num_render_grid : Nat
  updated_bounce : Nat
  grids : List GridObj
  cubes : List Ped
  swapped : Bool
  deriving DecidableEq, Repr

/-- Bounce limit: const int max_bounce = 3 in EEVEE_lightprobes_refresh. -/
def max_bounce : Nat := 3

/-- Modelled from the spec: MAX_PROBE, the hard maximum cube-probe count of
eevee_private.h (the header is absent from this source tree); the engine
headers set it to 128.  It bounds the cube scan of the refresh loop
(probes_cube_ref is walked while i < MAX_PROBE).  cache_add receives the
same bound as an explicit parameter. -/
def MAX_PROBE : Nat := 128

/-- Modelled from the spec: MAX_GRID, the hard maximum grid-probe count of
eevee_private.h (the header is absent from this source tree); the engine
headers set it to 64.  It bounds the grid scan and the bounce-advance retag
loop of the refresh function (probes_grid_ref is walked while i < MAX_GRID),
so only registry slots 1 through MAX_GRID - 1 are ever visited there. -/
def MAX_GRID : Nat := 64

/-- One grid-cell bake unit, the body of the need_update branch in the grid
scan of EEVEE_lightprobes_refresh: read cell_id from updated_cells, swap the
irradiance buffers, capture the scene at the cell location, diffuse-filter
into the atlas at egrid->offset + cell_id, swap back, increment
updated_cells, clear need_update once every cell is done, request a redraw.
The temporary zeroing of num_render_cube / num_render_grid is restored from
saved copies before the function returns and therefore has no net effect on
the scheduler state. -/
def gridCellStep (gi : Nat) (g : GridObj) : List Ev × GridObj :=
  ([Ev.swapIrradiance, Ev.gridCellCapture gi g.ped.updated_cells,
    Ev.diffuseFilter (g.offset + g.ped.updated_cells), Ev.swapIrradiance, Ev.redraw],
   { g with ped :=
      { g.ped with
        updated_cells := g.ped.updated_cells + 1,
        need_update :=
          if g.ped.num_cell ≤ g.ped.updated_cells + 1 then false
          else g.ped.need_update } })

/-- Sentinel-terminated scan of probes_grid_ref starting at slot 1, bounded
by i < MAX_GRID as in the source loop: process the first grid in a slot
below MAX_GRID whose need_update flag is set and stop; none when every such
grid is clean (grids in slots at or beyond MAX_GRID are never reached). -/
def scanGrids (gi : Nat) : List GridObj → Option (List Ev × List GridObj)
  | [] => none
  | g :: gs =>
    if gi < MAX_GRID then
      if g.ped.need_update = true then
        some ((gridCellStep gi g).1, (gridCellStep gi g).2 :: gs)
      else
        match scanGrids (gi + 1) gs with
        | some (evs, gs1) => some (evs, g :: gs1)
        | none => none
    else none

/-- Retag pass run when a bounce completes and more bounces remain, bounded
by i < MAX_GRID as in the source loop: every registered grid in a slot below
MAX_GRID is marked need_update with updated_cells reset to 0; grids in later
slots are left untouched. -/
def retagGrids (gi : Nat) : List GridObj → List GridObj
  | [] => []
  | g :: gs =>
    if gi < MAX_GRID then
      { g with ped := { g.ped with need_update := true, updated_cells := 0 } } ::
        retagGrids (gi + 1) gs
    else g :: gs

/-- The while (updated_bounce < max_bounce) loop of EEVEE_lightprobes_refresh
as fuel-bounded recursion.  The Bool result records whether the loop body
returned out of the function (after baking one grid cell).  Each iteration
that does not return increments updated_bounce, which the loop condition
bounds by max_bounce, so calling with fuel = max_bounce reproduces the loop
exactly for every input state: whenever the fuel runs out the loop condition
is already false. -/
def bounceLoopFuel : Nat → RState → List Ev × RState × Bool
  | 0, s => ([], s, false)
  | f + 1, s =>
    if s.updated_bounce < max_bounce then
      match scanGrids 1 s.grids with
      | some (evs, gs1) =>
          (evs, { s with num_render_grid := s.num_grid, grids := gs1 }, true)
      | none =>
          if s.updated_bounce + 1 < max_bounce then
            ((Ev.swapIrradiance ::
               (bounceLoopFuel f
                 { s with updated_bounce := s.updated_bounce + 1,
                          num_render_grid := s.num_grid,
                          grids := retagGrids 1 s.grids,
                          swapped := !s.swapped }).1),
             (bounceLoopFuel f
               { s with updated_bounce := s.updated_bounce + 1,
                        num_render_grid := s.num_grid,
                        grids := retagGrids 1 s.grids,
                        swapped := !s.swapped }).2)
          else
            bounceLoopFuel f
              { s with updated_bounce := s.updated_bounce + 1,
                       num_render_grid := s.num_grid }
    else ([], s, false)

/-- Sentinel-terminated scan of probes_cube_ref starting at slot 1, bounded
by i < MAX_PROBE as in the source loop: capture and glossy-filter the first
cube probe whose need_update flag is set, clear its flag, set probe_id to
its slot, mark it ready to shade, and report (in the Bool) whether
num_render_cube must be bumped (first completion). -/
def scanCubes (ci : Nat) : List Ped → Option (List Ev × List Ped × Bool)
  | [] => none
  | p :: ps =>
    if ci < MAX_PROBE then
      if p.need_update = true then
        some ([Ev.cubeCapture ci, Ev.glossyFilter ci, Ev.redraw],
              { p with need_update := false, probe_id := ci, ready_to_shade := true } :: ps,
              !p.ready_to_shade)
      else
        match scanCubes (ci + 1) ps with
        | some (evs, ps1, b) => some (evs, p :: ps1, b)
        | none => none
    else none

/-- EEVEE_lightprobes_refresh.  pause is the navigation / playback pause
signal: evil_C is non-null and (RV3D_NAVIGATING is set or
ED_screen_animation_no_scrub returns non-null). -/
def EEVEE_lightprobes_refresh (pause : Bool) (s : RState) : List Ev × RState :=
  if s.update_world = true then
    ([Ev.worldCapture, Ev.glossyFilter 0, Ev.diffuseFilter 0, Ev.swapIrradiance,
      Ev.diffuseFilter 0, Ev.redraw],
     if s.world_ready_to_shade = true then
       { s with update_world := false, swapped := !s.swapped }
     else
       { s with update_world := false, swapped := !s.swapped,
                world_ready_to_shade := true, num_render_cube := 1, num_render_grid := 1 })
  else if pause = true then ([], s)
  else
    match bounceLoopFuel max_bounce s with
    | (evs, s1, true) => (evs, s1)
    | (evs, s1, false) =>
      match scanCubes 1 s1.cubes with
      | some (evs2, cs, bump) =>
          (evs ++ evs2,
           { s1 with cubes := cs,
                     num_render_cube :=
                       if bump then s1.num_render_cube + 1 else s1.num_render_cube })
      | none => (evs, s1)

/-- Bake units in the sense of the scheduler contract: grid-cell captures and
(non-world) cube-probe captures. -/
def isBakeUnit : Ev → Bool
  | Ev.gridCellCapture _ _ => true
  | Ev.cubeCapture _ => true
  | _ => false

/-- Number of bake units recorded in a trace. -/
def bakeUnits (evs : List Ev) : Nat := evs.countP isBakeUnit

/-- Iterate the per-frame refresh entry point, concatenating the traces. -/
def iterRefresh (pause : Bool) : Nat → RState → List Ev × RState
  | 0, s => ([], s)
  | n + 1, s =>
    ((EEVEE_lightprobes_refresh pause s).1 ++
       (iterRefresh pause n (EEVEE_lightprobes_refresh pause s).2).1,
     (iterRefresh pause n (EEVEE_lightprobes_refresh pause s).2).2)

/-- Grid-cell captures of a trace, as (grid slot, cell index) pairs in order. -/
def captureTrace (evs : List Ev) : List (Nat × Nat) :=
  evs.filterMap fun e =>
    match e with
    | Ev.gridCellCapture i c => some (i, c)
    | _ => none

/-- Scheduler state holding a single registered grid with updated_cells =
cells, num_cell = nc and atlas offset off, mid-convergence (bounce 2), world
clean and ready, no registered cube probes. -/
def singleGridState (cells nc off : Nat) : RState :=
  { update_world := false, world_ready_to_shade := true, num_grid := 2,
    num_render_cube := 1, num_render_grid := 2, updated_bounce := 2,
    grids := [{ ped := { need_update := true, updated_cells := cells, probe_id := 0,
                         ready_to_shade := false, num_cell := nc }, offset := off }],
    cubes := [], swapped := false }

/-- Registry state touched by EEVEE_lightprobes_cache_add: the per-kind
counts (starting at 1, slot 0 being the world), the ordered reference lists
of registered object ids, and the scene-wide bounce counter. -/
structure Registry where
  num_cube : Nat
  num_grid : Nat
  cube_refs : List Nat
  grid_refs : List Nat
  updated_bounce : Nat
  deriving DecidableEq, Repr

/-- Inputs of EEVEE_lightprobes_cache_add read from the scene object: an
identity, the probe kind, whether (ob->deg_update_flag &
DEG_RUNTIME_DATA_UPDATE) is non-zero, and the grid resolution. -/
structure AddObj where
  oid : Nat
  ptype : ProbeType
  deg_update : Bool
  res_x : Nat
  res_y : Nat
  res_z : Nat
  deriving DecidableEq, Repr

/-- EEVEE_lightprobes_cache_add.  maxProbe is the MAX_PROBE constant of
eevee_private.h (not part of this source file); the source's capacity check
compares both the cube count and the grid count against MAX_PROBE.  uw is
e_data.update_world.  Returns the updated registry, the object's updated
engine data, and true when the object was rejected for capacity. -/
def EEVEE_lightprobes_cache_add (maxProbe : Nat) (uw : Bool)
    (reg : Registry) (ob : AddObj) (ped : Ped) : Registry × Ped × Bool :=
  if (ob.ptype = ProbeType.cube ∧ maxProbe ≤ reg.num_cube) ∨
     (ob.ptype = ProbeType.grid ∧ maxProbe ≤ reg.num_grid) then
    (reg, ped, true)
  else
    let ped1 := { ped with num_cell := ob.res_x * ob.res_y * ob.res_z }
    let ped2 :=
      if ob.deg_update = true then
        { ped1 with need_update := true, updated_cells := 0, probe_id := 0 }
      else ped1
    let reg1 := if ob.deg_update = true then { reg with updated_bounce := 0 } else reg
    let ped3 :=
      if uw = true then
        { ped2 with need_update := true, updated_cells := 0, probe_id := 0 }
      else ped2
    let reg2 := if uw = true then { reg1 with updated_bounce := 0 } else reg1
    if ob.ptype = ProbeType.cube then
      ({ reg2 with cube_refs := reg2.cube_refs ++ [ob.oid], num_cube := reg2.num_cube + 1 },
       ped3, false)
    else
      ({ reg2 with grid_refs := reg2.grid_refs ++ [ob.oid], num_grid := reg2.num_grid + 1 },
       ped3, false)

/-- State touched by EEVEE_lightprobes_cache_finish: the e_data world flags,
the EEVEE_LightProbesInfo counters, allocation status of the reflection
atlas (probe_pool) and the two irradiance textures, the PROBE_UPDATE_CUBE
bit of update_flag, and the engine data of the registered cube and grid
probes (slots 1..). -/
structure EState where
  update_world : Bool
  world_ready_to_shade : Bool
  num_cube : Nat
  cache_num_cube : Nat
  num_render_cube : Nat
  num_render_grid : Nat
  updated_bounce : Nat
  update_flag_cube : Bool
  probe_pool : Bool
  irradiance_pool : Bool
  irradiance_rt : Bool
  cube_peds : List Ped
  grid_peds : List Ped
  deriving DecidableEq, Repr

/-- EEVEE_lightprobes_cache_finish: free the reflection atlas when the cube
count differs from the cached count; whenever the atlas is unallocated,
allocate it and invalidate the cube-side bake state; whenever either
irradiance texture is unallocated, allocate it and invalidate the grid-side
bake state. -/
def EEVEE_lightprobes_cache_finish (s : EState) : EState :=
  let s1 := if s.num_cube ≠ s.cache_num_cube then { s with probe_pool := false } else s
  let s2 :=
    if s1.probe_pool = false then
      { s1 with probe_pool := true, update_world := true, world_ready_to_shade := false,
                num_render_cube := 0, update_flag_cube := true, cache_num_cube := s1.num_cube,
                cube_peds := s1.cube_peds.map fun p =>
                  { p with need_update := true, ready_to_shade := false, probe_id := 0 } }
    else s1
  let s3 :=
    if s2.irradiance_pool = false then
      { s2 with irradiance_pool := true, num_render_grid := 0, updated_bounce := 0,
                grid_peds := s2.grid_peds.map fun p =>
                  { p with need_update := true, updated_cells := 0 } }
    else s2
  if s3.irradiance_rt = false then
    { s3 with irradiance_rt := true, num_render_grid := 0, updated_bounce := 0,
              grid_peds := s3.grid_peds.map fun p =>
                { p with need_update := true, updated_cells := 0 } }
  else s3

/-- PROBE_OCTAHEDRON_SIZE, the octahedral reflection atlas size. -/
def PROBE_OCTAHEDRON_SIZE : Nat := 1024

/-- PROBE_RT_SIZE, the cube render target size. -/
def PROBE_RT_SIZE : Nat := 512

/-- maxlevel in glossy_filter_probe: (int)floorf(log2f(PROBE_OCTAHEDRON_SIZE)),
which is 10 for an atlas size of 1024 (see maxlevel_pow). -/
def maxlevel : Nat := 10

/-- min_lod_level in glossy_filter_probe. -/
def min_lod_level : Nat := 3

/-- The CLAMP macro: if (a < b) a = b; else if (a > c) a = c. -/
def clampQ (a b c : ℚ) : ℚ := if a < b then b else if c < a then c else a

/-- Per-mip-level roughness computed in glossy_filter_probe, modelled over the
rationals: r = i / (maxlevel - 4); r *= r (Disney roughness); r *= r
(distribute roughness across lods); CLAMP(r, 1e-8, 0.99999). -/
def glossy_filter_roughness (i : Nat) : ℚ :=
  clampQ ((((i : ℚ) / ((maxlevel : ℚ) - 4)) * ((i : ℚ) / ((maxlevel : ℚ) - 4))) *
          (((i : ℚ) / ((maxlevel : ℚ) - 4)) * ((i : ℚ) / ((maxlevel : ℚ) - 4))))
    (1 / 100000000) (99999 / 100000)

/-- Per-mip-level importance-sample count of glossy_filter_probe (the
variable sample count switch: 1, 16, 32, 64, then 128 for every later
level). -/
def glossy_filter_samples_ct : Nat → Nat
  | 0 => 1
  | 1 => 16
  | 2 => 32
  | 3 => 64
  | _ => 128

/-- Integer cell decoding used by lightprobe_cell_location_get:
local_cell[2] = cell_idx % resZ; local_cell[1] = (cell_idx / resZ) % resY;
local_cell[0] = cell_idx / (resZ * resY).  Returned as (x, y, z).  The C
operands are non-negative ints, so C division and modulus agree with Nat
division and modulus. -/
def lightprobe_cell_local_coords (resY resZ idx : Nat) : Nat × Nat × Nat :=
  (idx / (resZ * resY), (idx / resZ) % resY, idx % resZ)

/-- Flattened cell index convention of the consumers of the grid
(f(x,y,z) = z + resZ * (y + resY * x), z-fastest). -/
def cellFlatten (resY resZ x y z : Nat) : Nat := z + resZ * (y + resY * x)

/-- Claim-side reading of the capacity contract of cache_add, with a
kind-specific grid maximum maxGrid distinct from maxProbe: the object is
rejected exactly when its kind's own capacity is exhausted. -/
def cacheAddRejectsPerKind (maxProbe maxGrid : Nat) (uw : Bool)
    (reg : Registry) (ob : AddObj) (ped : Ped) : Prop :=
  (EEVEE_lightprobes_cache_add maxProbe uw reg ob ped).2.2 = true ↔
    ((ob.ptype = ProbeType.cube ∧ maxProbe ≤ reg.num_cube) ∨
     (ob.ptype = ProbeType.grid ∧ maxGrid ≤ reg.num_grid))

/-- Claim-side reading of the bounce-reset contract of cache_add:
firstDirtyingAfterResize is the history proposition that this dirtying is
the very first one after an atlas resize; the claim asserts the scene-wide
bounce counter ends at zero precisely in that case. -/
def cacheAddBounceResetIff (maxProbe : Nat) (uw : Bool) (reg : Registry)
    (ob : AddObj) (ped : Ped) (firstDirtyingAfterResize : Prop) : Prop :=
  ((EEVEE_lightprobes_cache_add maxProbe uw reg ob ped).1.updated_bounce = 0) ↔
    firstDirtyingAfterResize

end Eevee

namespace Eevee

theorem scanGrids_none_iff (gs : List GridObj) : ∀ gi,
    scanGrids gi gs = none ↔
      ∀ g ∈ gs.take (MAX_GRID - gi), g.ped.need_update = false := by
  induction gs with
  | nil => intro gi; simp [scanGrids]
  | cons g gs ih =>
    intro gi
    by_cases hgi : gi < MAX_GRID
    · have htake : MAX_GRID - gi = (MAX_GRID - (gi + 1)) + 1 := by omega
      rw [htake]
      cases hb : g.ped.need_update with
      | true => simp [scanGrids, hgi, hb]
      | false =>
        simp only [scanGrids, if_pos hgi, hb, Bool.false_eq_true, if_false]
        cases hs : scanGrids (gi + 1) gs with
        | some v =>
          obtain ⟨evs, gs1⟩ := v
          simp only [hs]
          constructor
          · intro hc; exact absurd hc (by simp)
          · intro hall
            have hnone := (ih (gi + 1)).mpr fun g' hg' => hall g'
              (by rw [List.take_succ_cons]; exact List.mem_cons_of_mem _ hg')
            rw [hs] at hnone; exact absurd hnone (by simp)
        | none =>
          simp only [hs]
          constructor
          · intro _ g' hg'
            rw [List.take_succ_cons] at hg'
            rcases List.mem_cons.mp hg' with h1 | h2
            · rw [h1]; exact hb
            · exact (ih (gi + 1)).mp hs g' h2
          · intro _; trivial
    · have htake : MAX_GRID - gi = 0 := by omega
      simp [scanGrids, hgi, htake]

theorem scanGrids_some_units (gs : List GridObj) : ∀ gi evs gs1,
    scanGrids gi gs = some (evs, gs1) → bakeUnits evs = 1 := by
  induction gs with
  | nil => intro gi evs gs1 h; simp [scanGrids] at h
  | cons g gs ih =>
    intro gi evs gs1 h
    by_cases hgi : gi < MAX_GRID
    · cases hb : g.ped.need_update with
      | true =>
        simp only [scanGrids, if_pos hgi, hb, if_true] at h
        cases h
        simp [bakeUnits, gridCellStep, List.countP, List.countP.go, isBakeUnit]
      | false =>
        simp only [scanGrids, if_pos hgi, hb, Bool.false_eq_true, if_false] at h
        cases hs : scanGrids (gi + 1) gs with
        | some v =>
          cases v with
          | mk evs' gs' =>
            rw [hs] at h
            simp only [Option.some.injEq, Prod.mk.injEq] at h
            obtain ⟨h1, h2⟩ := h
            subst h1
            exact ih (gi + 1) evs' gs' hs
        | none => rw [hs] at h; cases h
    · simp only [scanGrids, if_neg hgi] at h
      cases h

theorem scanGrids_some_no_cube (gs : List GridObj) : ∀ gi evs gs1,
    scanGrids gi gs = some (evs, gs1) → ∀ i, Ev.cubeCapture i ∉ evs := by
  induction gs with
  | nil => intro gi evs gs1 h; simp [scanGrids] at h
  | cons g gs ih =>
    intro gi evs gs1 h
    by_cases hgi : gi < MAX_GRID
    · cases hb : g.ped.need_update with
      | true =>
        simp only [scanGrids, if_pos hgi, hb, if_true] at h
        cases h
        intro i
        simp [gridCellStep]
      | false =>
        simp only [scanGrids, if_pos hgi, hb, Bool.false_eq_true, if_false] at h
        cases hs : scanGrids (gi + 1) gs with
        | some v =>
          cases v with
          | mk evs' gs' =>
            rw [hs] at h
            simp only [Option.some.injEq, Prod.mk.injEq] at h
            obtain ⟨h1, h2⟩ := h
            subst h1
            exact ih (gi + 1) evs' gs' hs
        | none => rw [hs] at h; cases h
    · simp only [scanGrids, if_neg hgi] at h
      cases h

theorem scanCubes_none_iff (ps : List Ped) : ∀ ci,
    scanCubes ci ps = none ↔
      ∀ p ∈ ps.take (MAX_PROBE - ci), p.need_update = false := by
  induction ps with
  | nil => intro ci; simp [scanCubes]
  | cons p ps ih =>
    intro ci
    by_cases hci : ci < MAX_PROBE
    · have htake : MAX_PROBE - ci = (MAX_PROBE - (ci + 1)) + 1 := by omega
      rw [htake]
      cases hb : p.need_update with
      | true => simp [scanCubes, hci, hb]
      | false =>
        simp only [scanCubes, if_pos hci, hb, Bool.false_eq_true, if_false]
        cases hs : scanCubes (ci + 1) ps with
        | some v =>
          obtain ⟨evs, rest⟩ := v
          simp only [hs]
          constructor
          · intro hc; exact absurd hc (by simp)
          · intro hall
            have hnone := (ih (ci + 1)).mpr fun p' hp' => hall p'
              (by rw [List.take_succ_cons]; exact List.mem_cons_of_mem _ hp')
            rw [hs] at hnone; exact absurd hnone (by simp)
        | none =>
          simp only [hs]
          constructor
          · intro _ p' hp'
            rw [List.take_succ_cons] at hp'
            rcases List.mem_cons.mp hp' with h1 | h2
            · rw [h1]; exact hb
            · exact (ih (ci + 1)).mp hs p' h2
          · intro _; trivial
    · have htake : MAX_PROBE - ci = 0 := by omega
      simp [scanCubes, hci, htake]

theorem scanCubes_some_units (ps : List Ped) : ∀ ci evs ps1 b,
    scanCubes ci ps = some (evs, ps1, b) → bakeUnits evs = 1 := by
  induction ps with
  | nil => intro ci evs ps1 b h; simp [scanCubes] at h
  | cons p ps ih =>
    intro ci evs ps1 b h
    by_cases hci : ci < MAX_PROBE
    · cases hb : p.need_update with
      | true =>
        simp only [scanCubes, if_pos hci, hb, if_true] at h
        cases h
        simp [bakeUnits, List.countP, List.countP.go, isBakeUnit]
      | false =>
        simp only [scanCubes, if_pos hci, hb, Bool.false_eq_true, if_false] at h
        cases hs : scanCubes (ci + 1) ps with
        | some v =>
          cases v with
          | mk evs' rest =>
            cases rest with
            | mk ps' b' =>
              rw [hs] at h
              simp only [Option.some.injEq, Prod.mk.injEq] at h
              obtain ⟨h1, h2, h3⟩ := h
              subst h1
              exact ih (ci + 1) evs' ps' b' hs
        | none => rw [hs] at h; cases h
    · simp only [scanCubes, if_neg hci] at h
      cases h

theorem bakeUnits_cons_swap (l : List Ev) :
    bakeUnits (Ev.swapIrradiance :: l) = bakeUnits l := by
  simp [bakeUnits, List.countP_cons, isBakeUnit]

theorem bakeUnits_append (l1 l2 : List Ev) :
    bakeUnits (l1 ++ l2) = bakeUnits l1 + bakeUnits l2 := by
  simp [bakeUnits, List.countP_append]

theorem bounceLoopFuel_true_units : ∀ f s, (bounceLoopFuel f s).2.2 = true →
    bakeUnits (bounceLoopFuel f s).1 = 1 := by
  intro f
  induction f with
  | zero => intro s h; simp [bounceLoopFuel] at h
  | succ f ih =>
    intro s h
    rw [bounceLoopFuel] at h ⊢
    by_cases hlt : s.updated_bounce < max_bounce
    · rw [if_pos hlt] at h ⊢
      cases hscan : scanGrids 1 s.grids with
      | some v =>
        obtain ⟨evs, gs1⟩ := v
        exact scanGrids_some_units s.grids 1 evs gs1 hscan
      | none =>
        rw [hscan] at h
        dsimp only at h ⊢
        by_cases hlt2 : s.updated_bounce + 1 < max_bounce
        · rw [if_pos hlt2] at h ⊢
          dsimp only at h ⊢
          rw [bakeUnits_cons_swap]
          exact ih _ h
        · rw [if_neg hlt2] at h ⊢
          exact ih _ h
    · rw [if_neg hlt] at h
      simp at h

theorem bounceLoopFuel_false_units : ∀ f s, (bounceLoopFuel f s).2.2 = false →
    bakeUnits (bounceLoopFuel f s).1 = 0 ∧ (bounceLoopFuel f s).2.1.cubes = s.cubes := by
  intro f
  induction f with
  | zero => intro s _; simp [bounceLoopFuel, bakeUnits]
  | succ f ih =>
    intro s h
    rw [bounceLoopFuel] at h ⊢
    by_cases hlt : s.updated_bounce < max_bounce
    · rw [if_pos hlt] at h ⊢
      cases hscan : scanGrids 1 s.grids with
      | some v =>
        obtain ⟨evs, gs1⟩ := v
        rw [hscan] at h
        simp at h
      | none =>
        rw [hscan] at h
        dsimp only at h ⊢
        by_cases hlt2 : s.updated_bounce + 1 < max_bounce
        · rw [if_pos hlt2] at h ⊢
          dsimp only at h ⊢
          refine ⟨?_, ?_⟩
          · rw [bakeUnits_cons_swap]
            exact (ih _ h).1
          · exact (ih _ h).2
        · rw [if_neg hlt2] at h ⊢
          exact ih _ h
    · rw [if_neg hlt]
      simp [bakeUnits]

theorem bounceLoopFuel_no_cube : ∀ f s i, Ev.cubeCapture i ∉ (bounceLoopFuel f s).1 := by
  intro f
  induction f with
  | zero => intro s i; simp [bounceLoopFuel]
  | succ f ih =>
    intro s i
    rw [bounceLoopFuel]
    by_cases hlt : s.updated_bounce < max_bounce
    · rw [if_pos hlt]
      cases hscan : scanGrids 1 s.grids with
      | some v =>
        obtain ⟨evs, gs1⟩ := v
        exact scanGrids_some_no_cube s.grids 1 evs gs1 hscan i
      | none =>
        dsimp only
        by_cases hlt2 : s.updated_bounce + 1 < max_bounce
        · rw [if_pos hlt2]
          dsimp only
          intro hmem
          rcases List.mem_cons.mp hmem with h1 | h2
          · cases h1
          · exact ih _ i h2
        · rw [if_neg hlt2]
          exact ih _ i
    · rw [if_neg hlt]
      simp

theorem bounceLoopFuel_clean : ∀ f s,
    (∀ g ∈ s.grids.take (MAX_GRID - 1), g.ped.need_update = true →
      s.updated_bounce < max_bounce) →
    max_bounce ≤ s.updated_bounce + f →
    (bounceLoopFuel f s).2.2 = false →
    (∀ g ∈ s.grids.take (MAX_GRID - 1), g.ped.need_update = false) ∧
    (∀ g ∈ (bounceLoopFuel f s).2.1.grids.take (MAX_GRID - 1), g.ped.need_update = false) ∧
    (s.updated_bounce ≤ max_bounce → (bounceLoopFuel f s).2.1.updated_bounce = max_bounce) := by
  intro f
  induction f with
  | zero =>
    intro s hinv hf _
    have hge : max_bounce ≤ s.updated_bounce := by omega
    have hclean : ∀ g ∈ s.grids.take (MAX_GRID - 1), g.ped.need_update = false := by
      intro g hg
      cases hb : g.ped.need_update with
      | false => rfl
      | true => exact absurd (hinv g hg hb) (by omega)
    refine ⟨hclean, hclean, ?_⟩
    intro hle
    show s.updated_bounce = max_bounce
    omega
  | succ f ih =>
    intro s hinv hf h
    rw [bounceLoopFuel] at h ⊢
    by_cases hlt : s.updated_bounce < max_bounce
    · rw [if_pos hlt] at h ⊢
      cases hscan : scanGrids 1 s.grids with
      | some v =>
        obtain ⟨evs, gs1⟩ := v
        rw [hscan] at h
        simp at h
      | none =>
        rw [hscan] at h
        dsimp only at h ⊢
        have hclean : ∀ g ∈ s.grids.take (MAX_GRID - 1), g.ped.need_update = false :=
          (scanGrids_none_iff s.grids 1).mp hscan
        by_cases hlt2 : s.updated_bounce + 1 < max_bounce
        · rw [if_pos hlt2] at h ⊢
          dsimp only at h ⊢
          have hrec := ih
            { s with updated_bounce := s.updated_bounce + 1,
                     num_render_grid := s.num_grid,
                     grids := retagGrids 1 s.grids,
                     swapped := !s.swapped }
            (fun g _ _ => hlt2)
            (by show max_bounce ≤ s.updated_bounce + 1 + f; omega)
            h
          refine ⟨hclean, hrec.2.1, ?_⟩
          intro _
          exact hrec.2.2 (by show s.updated_bounce + 1 ≤ max_bounce; omega)
        · rw [if_neg hlt2] at h ⊢
          have hrec := ih
            { s with updated_bounce := s.updated_bounce + 1,
                     num_render_grid := s.num_grid }
            (by
              intro g hg hd
              have hgf := hclean g hg
              rw [hgf] at hd
              cases hd)
            (by show max_bounce ≤ s.updated_bounce + 1 + f; omega)
            h
          refine ⟨hclean, hrec.2.1, ?_⟩
          intro _
          exact hrec.2.2 (by show s.updated_bounce + 1 ≤ max_bounce; omega)
    · rw [if_neg hlt] at h ⊢
      have hclean : ∀ g ∈ s.grids.take (MAX_GRID - 1), g.ped.need_update = false := by
        intro g hg
        cases hb : g.ped.need_update with
        | false => rfl
        | true => exact absurd (hinv g hg hb) hlt
      refine ⟨hclean, hclean, ?_⟩
      intro hle
      show s.updated_bounce = max_bounce
      omega

/-- Example state for claim C3: the world-dirty flag is set, the world probe
has not completed before, and a dirty grid is registered. -/
def exC3 : RState :=
  { update_world := true, world_ready_to_shade := false, num_grid := 2,
    num_render_cube := 0, num_render_grid := 0, updated_bounce := 0,
    grids := [{ ped := { need_update := true, updated_cells := 0, probe_id := 0,
                         ready_to_shade := false, num_cell := 8 }, offset := 1 }],
    cubes := [], swapped := false }

/-- Claim C3: whenever the world-dirty flag is set at entry, the invocation
performs exactly a world capture, a glossy filter into atlas layer 0, a
diffuse filter at cell offset 0, one swap of the two irradiance buffers, a
second diffuse filter at cell offset 0, and a redraw request; it clears the
world-dirty flag; on first completion it marks the world ready to shade and
sets the rendered cube and grid counts to 1 (and leaves them unchanged
otherwise); and it performs no grid-cell or cube-probe work. -/
theorem claim_C3 (pause : Bool) (s : RState) (h : s.update_world = true) :
    (EEVEE_lightprobes_refresh pause s).1 =
      [Ev.worldCapture, Ev.glossyFilter 0, Ev.diffuseFilter 0, Ev.swapIrradiance,
       Ev.diffuseFilter 0, Ev.redraw] ∧
    (EEVEE_lightprobes_refresh pause s).2.update_world = false ∧
    (s.world_ready_to_shade = false →
       (EEVEE_lightprobes_refresh pause s).2.world_ready_to_shade = true ∧
       (EEVEE_lightprobes_refresh pause s).2.num_render_cube = 1 ∧
       (EEVEE_lightprobes_refresh pause s).2.num_render_grid = 1) ∧
    (s.world_ready_to_shade = true →
       (EEVEE_lightprobes_refresh pause s).2.world_ready_to_shade = true ∧
       (EEVEE_lightprobes_refresh pause s).2.num_render_cube = s.num_render_cube ∧
       (EEVEE_lightprobes_refresh pause s).2.num_render_grid = s.num_render_grid) ∧
    (EEVEE_lightprobes_refresh pause s).2.grids = s.grids ∧
    (EEVEE_lightprobes_refresh pause s).2.cubes = s.cubes ∧
    bakeUnits (EEVEE_lightprobes_refresh pause s).1 = 0 := by
  unfold EEVEE_lightprobes_refresh
  rw [if_pos h]
  cases hw : s.world_ready_to_shade <;>
    simp [hw, bakeUnits, List.countP_cons, isBakeUnit]

/-- Witness for claim C3 at a concrete first-completion state. -/
theorem claim_C3_witness :
    (EEVEE_lightprobes_refresh false exC3).1 =
      [Ev.worldCapture, Ev.glossyFilter 0, Ev.diffuseFilter 0, Ev.swapIrradiance,
       Ev.diffuseFilter 0, Ev.redraw] ∧
    (EEVEE_lightprobes_refresh false exC3).2.update_world = false ∧
    (EEVEE_lightprobes_refresh false exC3).2.num_render_cube = 1 ∧
    bakeUnits (EEVEE_lightprobes_refresh false exC3).1 = 0 := by
  have h := claim_C3 false exC3 rfl
  exact ⟨h.1, h.2.1, (h.2.2.1 rfl).2.1, h.2.2.2.2.2.2⟩

/-- Claim C4: the unflattening used in lightprobe_cell_location_get
(z = idx mod resZ, y = (idx div resZ) mod resY, x = idx div (resZ * resY))
recovers (x, y, z) from the z-fastest flattened index
f(x, y, z) = z + resZ * (y + resY * x), for all in-range coordinates of a
grid with positive resolution. -/
theorem claim_C4 (resX resY resZ x y z : Nat) (hx0 : 0 < resX) (hy0 : 0 < resY)
    (hz0 : 0 < resZ) (hx : x < resX) (hy : y < resY) (hz : z < resZ) :
    lightprobe_cell_local_coords resY resZ (cellFlatten resY resZ x y z) = (x, y, z) := by
  unfold lightprobe_cell_local_coords cellFlatten
  have h2 : (z + resZ * (y + resY * x)) / resZ = y + resY * x := by
    rw [Nat.add_mul_div_left _ _ hz0, Nat.div_eq_of_lt hz, Nat.zero_add]
  have h3 : (z + resZ * (y + resY * x)) / (resZ * resY) = x := by
    have hlt : z + resZ * y < resZ * resY := by
      calc z + resZ * y < resZ + resZ * y := by omega
        _ = resZ * (y + 1) := by ring
        _ ≤ resZ * resY := Nat.mul_le_mul_left _ (by omega)
    have hsplit : z + resZ * (y + resY * x) = (z + resZ * y) + (resZ * resY) * x := by ring
    rw [hsplit, Nat.add_mul_div_left _ _ (Nat.mul_pos hz0 hy0), Nat.div_eq_of_lt hlt,
      Nat.zero_add]
  simp only [Prod.mk.injEq]
  refine ⟨h3, ?_, ?_⟩
  · rw [h2, Nat.add_mul_mod_self_left, Nat.mod_eq_of_lt hy]
  · rw [Nat.add_mul_mod_self_left, Nat.mod_eq_of_lt hz]

/-- Witness for claim C4 at resolution (3, 4, 5) and cell (2, 1, 3). -/
theorem claim_C4_witness :
    lightprobe_cell_local_coords 4 5 (cellFlatten 4 5 2 1 3) = (2, 1, 3) :=
  claim_C4 3 4 5 2 1 3 (by decide) (by decide) (by decide) (by decide) (by decide) (by decide)

/-- Claim C8: over the levels processed by the glossy filter loop
(0 through maxlevel - min_lod_level - 1), the per-level roughness equals
clamp(((i / (maxlevel - 4))^2)^2, 1e-8, 0.99999), equals the clamp minimum
1e-8 at level 0, and is monotonically non-decreasing in the level index.
The float computation is modelled exactly over the rationals. -/
theorem claim_C8 : ∀ i, i < maxlevel - min_lod_level →
    glossy_filter_roughness i =
      clampQ ((((i : ℚ) / ((maxlevel : ℚ) - 4)) ^ 2) ^ 2) (1 / 100000000) (99999 / 100000) ∧
    glossy_filter_roughness 0 = 1 / 100000000 ∧
    ∀ j, j < maxlevel - min_lod_level → i ≤ j →
      glossy_filter_roughness i ≤ glossy_filter_roughness j := by
  have hpow : ∀ i : Nat,
      ((((i : ℚ) / ((maxlevel : ℚ) - 4)) * ((i : ℚ) / ((maxlevel : ℚ) - 4))) *
        (((i : ℚ) / ((maxlevel : ℚ) - 4)) * ((i : ℚ) / ((maxlevel : ℚ) - 4)))) =
      ((((i : ℚ) / ((maxlevel : ℚ) - 4)) ^ 2) ^ 2) := by
    intro i; ring
  have hv0 : glossy_filter_roughness 0 = 1 / 100000000 := by
    unfold glossy_filter_roughness clampQ maxlevel
    rw [if_pos (by norm_num)]
  have hv1 : glossy_filter_roughness 1 = 1 / 1296 := by
    unfold glossy_filter_roughness clampQ maxlevel
    rw [if_neg (by norm_num), if_neg (by norm_num)]
    norm_num
  have hv2 : glossy_filter_roughness 2 = 1 / 81 := by
    unfold glossy_filter_roughness clampQ maxlevel
    rw [if_neg (by norm_num), if_neg (by norm_num)]
    norm_num
  have hv3 : glossy_filter_roughness 3 = 1 / 16 := by
    unfold glossy_filter_roughness clampQ maxlevel
    rw [if_neg (by norm_num), if_neg (by norm_num)]
    norm_num
  have hv4 : glossy_filter_roughness 4 = 16 / 81 := by
    unfold glossy_filter_roughness clampQ maxlevel
    rw [if_neg (by norm_num), if_neg (by norm_num)]
    norm_num
  have hv5 : glossy_filter_roughness 5 = 625 / 1296 := by
    unfold glossy_filter_roughness clampQ maxlevel
    rw [if_neg (by norm_num), if_neg (by norm_num)]
    norm_num
  have hv6 : glossy_filter_roughness 6 = 99999 / 100000 := by
    unfold glossy_filter_roughness clampQ maxlevel
    rw [if_neg (by norm_num), if_pos (by norm_num)]
  intro i hi
  have hi7 : i < 7 := by
    have : maxlevel - min_lod_level = 7 := by decide
    omega
  refine ⟨?_, hv0, ?_⟩
  · unfold glossy_filter_roughness
    rw [hpow]
  · intro j hj hij
    have hj7 : j < 7 := by
      have : maxlevel - min_lod_level = 7 := by decide
      omega
    interval_cases i <;> interval_cases j <;>
      simp only [hv0, hv1, hv2, hv3, hv4, hv5, hv6] <;> norm_num

/-- Witness for claim C8: the level-0 value and a monotonicity instance. -/
theorem claim_C8_witness :
    glossy_filter_roughness 0 = 1 / 100000000 ∧
    glossy_filter_roughness 1 ≤ glossy_filter_roughness 2 :=
  ⟨(claim_C8 0 (by decide)).2.1, (claim_C8 1 (by decide)).2.2 2 (by decide) (by decide)⟩

/-- Counterexample for claim C9 as stated: the per-level importance-sample
count is not decreasing with the level index over the processed levels
(level 0 uses 1 sample while level 1 uses 16). -/
theorem claim_C9_counterexample :
    ¬ (∀ j, j < maxlevel - min_lod_level → ∀ i, i ≤ j →
         glossy_filter_samples_ct j ≤ glossy_filter_samples_ct i) := by
  decide

/-- Claim C9 (amended): the per-level importance-sample count takes the
values 1, 16, 32, 64, 128 for the first five levels, 128 for every later
level, and is monotonically non-decreasing (not decreasing) with the level
index. -/
theorem claim_C9 :
    glossy_filter_samples_ct 0 = 1 ∧ glossy_filter_samples_ct 1 = 16 ∧
    glossy_filter_samples_ct 2 = 32 ∧ glossy_filter_samples_ct 3 = 64 ∧
    glossy_filter_samples_ct 4 = 128 ∧
    (∀ i, 4 ≤ i → glossy_filter_samples_ct i = 128) ∧
    (∀ i j, i ≤ j → glossy_filter_samples_ct i ≤ glossy_filter_samples_ct j) := by
  refine ⟨rfl, rfl, rfl, rfl, rfl, ?_, ?_⟩
  · intro i hi
    match i, hi with
    | n + 4, _ => rfl
  · intro i j hij
    rcases Nat.lt_or_ge j 4 with hj | hj
    · interval_cases j <;> interval_cases i <;> decide
    · have h128 : glossy_filter_samples_ct j = 128 := by
        match j, hj with
        | n + 4, _ => rfl
      rw [h128]
      match i with
      | 0 => decide
      | 1 => decide
      | 2 => decide
      | 3 => decide
      | n + 4 => exact Nat.le_refl _

/-- Witness for claim C9: the sample counts at levels 0 and 6 and a
monotonicity instance. -/
theorem claim_C9_witness :
    glossy_filter_samples_ct 0 = 1 ∧ glossy_filter_samples_ct 6 = 128 ∧
    glossy_filter_samples_ct 3 ≤ glossy_filter_samples_ct 4 :=
  ⟨claim_C9.1, claim_C9.2.2.2.2.2.1 6 (by decide), claim_C9.2.2.2.2.2.2 3 4 (by decide)⟩

/-- Example state for the claim C1 counterexample: the world-dirty flag is
set while a registered grid is also dirty and pause is inactive. -/
def exC1 : RState :=
  { update_world := true, world_ready_to_shade := false, num_grid := 2,
    num_render_cube := 0, num_render_grid := 0, updated_bounce := 0,
    grids := [{ ped := { need_update := true, updated_cells := 0, probe_id := 0,
                         ready_to_shade := false, num_cell := 8 }, offset := 1 }],
    cubes := [], swapped := false }

/-- Counterexample for claim C1 as stated: dirty state exists (a grid needs
update) and pause is inactive, yet the invocation completes zero bake units,
because the world-dirty branch takes priority and performs only world work. -/
theorem claim_C1_counterexample :
    (∃ g ∈ exC1.grids, g.ped.need_update = true) ∧
    bakeUnits (EEVEE_lightprobes_refresh false exC1).1 = 0 := by
  decide

/-- Claim C1 (amended): in every invocation, at most one bake unit (grid-cell
or non-world cube capture) is performed; zero bake units complete when the
pause signal is active; zero bake units complete when the world-dirty flag
is set (the invocation then performs only world work); and when pause is
inactive, the world-dirty flag is clear, and any dirty state exists among
the slots the refresh loops visit — a dirty grid among registry slots 1
through MAX_GRID - 1 or a dirty cube among slots 1 through MAX_PROBE - 1 —
exactly one bake unit completes.  Dirty grids at slots at or beyond MAX_GRID
are outside the scan bound and trigger no work.  The hypothesis is the
reachable bounce invariant for the scanned slots: a dirty scanned grid
implies the bounce counter is below the limit. -/
theorem claim_C1 (pause : Bool) (s : RState)
    (hinv : ∀ g ∈ s.grids.take (MAX_GRID - 1), g.ped.need_update = true →
      s.updated_bounce < max_bounce) :
    bakeUnits (EEVEE_lightprobes_refresh pause s).1 ≤ 1 ∧
    (pause = true → bakeUnits (EEVEE_lightprobes_refresh pause s).1 = 0) ∧
    (s.update_world = true → bakeUnits (EEVEE_lightprobes_refresh pause s).1 = 0) ∧
    (pause = false → s.update_world = false →
      ((∃ g ∈ s.grids.take (MAX_GRID - 1), g.ped.need_update = true) ∨
       (∃ c ∈ s.cubes.take (MAX_PROBE - 1), c.need_update = true)) →
      bakeUnits (EEVEE_lightprobes_refresh pause s).1 = 1) := by
  by_cases hw : s.update_world = true
  · have hz : bakeUnits (EEVEE_lightprobes_refresh pause s).1 = 0 := by
      unfold EEVEE_lightprobes_refresh
      rw [if_pos hw]
      exact (by decide :
        bakeUnits [Ev.worldCapture, Ev.glossyFilter 0, Ev.diffuseFilter 0, Ev.swapIrradiance,
          Ev.diffuseFilter 0, Ev.redraw] = 0)
    refine ⟨by omega, fun _ => hz, fun _ => hz, ?_⟩
    intro _ hw2 _
    rw [hw] at hw2
    simp at hw2
  · by_cases hp : pause = true
    · have hz : bakeUnits (EEVEE_lightprobes_refresh pause s).1 = 0 := by
        unfold EEVEE_lightprobes_refresh
        rw [if_neg hw, if_pos hp]
        exact (by decide : bakeUnits ([] : List Ev) = 0)
      refine ⟨by omega, fun _ => hz, fun _ => hz, ?_⟩
      intro hp2 _ _
      rw [hp2] at hp
      simp at hp
    · unfold EEVEE_lightprobes_refresh
      rw [if_neg hw, if_neg hp]
      cases hbl : bounceLoopFuel max_bounce s with
      | mk evs rest =>
      cases rest with
      | mk s1 flag =>
      cases flag with
      | true =>
        have h1 : bakeUnits evs = 1 := by
          have h := bounceLoopFuel_true_units max_bounce s (by rw [hbl])
          rwa [hbl] at h
        try rw [hbl]
        dsimp only
        exact ⟨by omega, fun hp2 => absurd hp2 hp, fun hw2 => absurd hw2 hw, fun _ _ _ => h1⟩
      | false =>
        have hfu := bounceLoopFuel_false_units max_bounce s (by rw [hbl])
        have hfu1 : bakeUnits evs = 0 := by rw [hbl] at hfu; exact hfu.1
        have hfuc : s1.cubes = s.cubes := by rw [hbl] at hfu; exact hfu.2
        have hcl := bounceLoopFuel_clean max_bounce s hinv (by omega) (by rw [hbl])
        have hclean : ∀ g ∈ s.grids.take (MAX_GRID - 1), g.ped.need_update = false := hcl.1
        try rw [hbl]
        dsimp only
        cases hsc : scanCubes 1 s1.cubes with
        | some v =>
          obtain ⟨evs2, cs, bump⟩ := v
          have h2 : bakeUnits evs2 = 1 :=
            scanCubes_some_units s1.cubes 1 evs2 cs bump hsc
          try rw [hsc]
          dsimp only
          rw [bakeUnits_append, hfu1, h2]
          exact ⟨by omega, fun hp2 => absurd hp2 hp, fun hw2 => absurd hw2 hw,
            fun _ _ _ => by omega⟩
        | none =>
          have hcubes : ∀ p ∈ s.cubes.take (MAX_PROBE - 1), p.need_update = false := by
            have h := (scanCubes_none_iff s1.cubes 1).mp hsc
            rwa [hfuc] at h
          try rw [hsc]
          dsimp only
          rw [hfu1]
          refine ⟨by omega, fun _ => rfl, fun _ => rfl, ?_⟩
          intro _ _ hex
          rcases hex with ⟨g, hg, hgd⟩ | ⟨c, hc, hcd⟩
          · rw [hclean g hg] at hgd
            cases hgd
          · rw [hcubes c hc] at hcd
            cases hcd

/-- Witness for claim C1 (amended) at a concrete state with one dirty grid
in slot 1: exactly one bake unit completes. -/
theorem claim_C1_witness :
    bakeUnits (EEVEE_lightprobes_refresh false (singleGridState 0 8 1)).1 = 1 := by
  have h := claim_C1 false (singleGridState 0 8 1) (by decide)
  exact h.2.2.2 rfl rfl (Or.inl (by decide))

/-- Registered grid with all cells baked and a clean dirty flag, used to
fill scanned slots in the claim C2 counterexample. -/
def exC2GridClean : GridObj :=
  { ped := { need_update := false, updated_cells := 8, probe_id := 0,
             ready_to_shade := false, num_cell := 8 }, offset := 1 }

/-- Counterexample state for claim C2: 64 registered grids — slots 1
through 63 converged, slot 64 (the first slot past the scan bound
MAX_GRID - 1) still dirty — bounce counter at the limit, and one dirty cube
probe.  This situation is reached by the program itself: the capacity check
of cache_add admits grids up to MAX_PROBE = 128 and cache_finish dirties
grid slots up to MAX_PROBE, while the refresh loops scan and retag only
slots below MAX_GRID = 64, so slot 64 is never baked and the bounce counter
reaches the limit with it still dirty. -/
def exC2Bad : RState :=
  { update_world := false, world_ready_to_shade := true, num_grid := 65,
    num_render_cube := 1, num_render_grid := 65, updated_bounce := 3,
    grids := List.replicate 63 exC2GridClean ++
      [{ ped := { need_update := true, updated_cells := 0, probe_id := 0,
                  ready_to_shade := false, num_cell := 8 }, offset := 505 }],
    cubes := [{ need_update := true, updated_cells := 0, probe_id := 0,
                ready_to_shade := false, num_cell := 0 }],
    swapped := false }

/-- Counterexample for claim C2 as stated: at exC2Bad the invocation
captures and glossy-filters a cube probe while a registered grid (slot 64,
beyond the scan bound) still has its need_update flag set, so cube
processing does not wait for every registered grid to be clean. -/
theorem claim_C2_counterexample :
    Ev.cubeCapture 1 ∈ (EEVEE_lightprobes_refresh false exC2Bad).1 ∧
    ∃ g ∈ (EEVEE_lightprobes_refresh false exC2Bad).2.grids, g.ped.need_update = true := by
  decide

/-- Claim C2 (amended): a non-world cube probe is captured only when the
bounce counter has reached the bounce limit and every grid among the
scanned registry slots (1 through MAX_GRID - 1) has a clear need_update
flag at that point; registered grids at slots at or beyond MAX_GRID are
never scanned, retagged, or baked by the refresh loop and may remain dirty
when cube processing begins.  The hypotheses are the reachable-state
invariants for the scanned slots: the bounce counter never exceeds the
limit, and a dirty scanned grid implies the bounce counter is below the
limit. -/
theorem claim_C2 (pause : Bool) (s : RState)
    (hb : s.updated_bounce ≤ max_bounce)
    (hinv : ∀ g ∈ s.grids.take (MAX_GRID - 1), g.ped.need_update = true →
      s.updated_bounce < max_bounce) :
    ∀ i, Ev.cubeCapture i ∈ (EEVEE_lightprobes_refresh pause s).1 →
      (EEVEE_lightprobes_refresh pause s).2.updated_bounce = max_bounce ∧
      ∀ g ∈ (EEVEE_lightprobes_refresh pause s).2.grids.take (MAX_GRID - 1),
        g.ped.need_update = false := by
  by_cases hw : s.update_world = true
  · intro i hmem
    unfold EEVEE_lightprobes_refresh at hmem
    rw [if_pos hw] at hmem
    simp at hmem
  · by_cases hp : pause = true
    · intro i hmem
      unfold EEVEE_lightprobes_refresh at hmem
      rw [if_neg hw, if_pos hp] at hmem
      simp at hmem
    · intro i hmem
      unfold EEVEE_lightprobes_refresh at hmem ⊢
      rw [if_neg hw, if_neg hp] at hmem ⊢
      cases hbl : bounceLoopFuel max_bounce s with
      | mk evs rest =>
      cases rest with
      | mk s1 flag =>
      try rw [hbl] at hmem
      try rw [hbl]
      cases flag with
      | true =>
        dsimp only at hmem
        have hnc := bounceLoopFuel_no_cube max_bounce s i
        rw [hbl] at hnc
        exact absurd hmem hnc
      | false =>
        have hclg : ∀ g ∈ s1.grids.take (MAX_GRID - 1), g.ped.need_update = false := by
          have hcl := bounceLoopFuel_clean max_bounce s hinv (by omega) (by rw [hbl])
          rw [hbl] at hcl
          exact hcl.2.1
        have hclb : s1.updated_bounce = max_bounce := by
          have hcl := bounceLoopFuel_clean max_bounce s hinv (by omega) (by rw [hbl])
          rw [hbl] at hcl
          exact hcl.2.2 hb
        dsimp only at hmem ⊢
        cases hsc : scanCubes 1 s1.cubes with
        | some v =>
          obtain ⟨evs2, cs, bump⟩ := v
          try rw [hsc] at hmem
          try rw [hsc]
          dsimp only
          exact ⟨hclb, hclg⟩
        | none =>
          try rw [hsc] at hmem
          try rw [hsc]
          dsimp only at hmem ⊢
          have hnc := bounceLoopFuel_no_cube max_bounce s i
          rw [hbl] at hnc
          exact absurd hmem hnc

/-- Example state for the claim C2 witness: convergence finished (bounce at
the limit, no grids registered) and one dirty cube probe. -/
def exC2 : RState :=
  { update_world := false, world_ready_to_shade := true, num_grid := 1,
    num_render_cube := 1, num_render_grid := 1, updated_bounce := 3,
    grids := [],
    cubes := [{ need_update := true, updated_cells := 0, probe_id := 0,
                ready_to_shade := false, num_cell := 0 }],
    swapped := false }

/-- Witness for claim C2 (amended) at a concrete state where a cube probe is
captured. -/
theorem claim_C2_witness :
    (EEVEE_lightprobes_refresh false exC2).2.updated_bounce = max_bounce ∧
    ∀ g ∈ (EEVEE_lightprobes_refresh false exC2).2.grids.take (MAX_GRID - 1),
      g.ped.need_update = false :=
  claim_C2 false exC2 (by decide) (by decide) 1 (by decide)

/-- Claim C5 (amended): when the required reflection-atlas layer count
differs from the cached count and all pools are allocated, cache_finish
frees and reallocates the atlas and invalidates the cube-side bake state
(every cube probe marked needs-update with ready cleared and probe id reset,
rendered-cube count zeroed, world marked dirty and not ready, cached count
updated, PROBE_UPDATE_CUBE set) while leaving the grid-side state (grid
engine data, bounce counter, rendered-grid count) unchanged in this
invocation; when the counts agree nothing changes, so reallocation occurs
only when the required layer count changes.  Grids are invalidated only
indirectly, on the next frame, through the world-dirty flag. -/
theorem claim_C5 (s : EState) (hp : s.probe_pool = true) (hip : s.irradiance_pool = true)
    (hirt : s.irradiance_rt = true) :
    (s.num_cube ≠ s.cache_num_cube →
       (EEVEE_lightprobes_cache_finish s).probe_pool = true ∧
       (EEVEE_lightprobes_cache_finish s).update_world = true ∧
       (EEVEE_lightprobes_cache_finish s).world_ready_to_shade = false ∧
       (EEVEE_lightprobes_cache_finish s).num_render_cube = 0 ∧
       (EEVEE_lightprobes_cache_finish s).update_flag_cube = true ∧
       (EEVEE_lightprobes_cache_finish s).cache_num_cube = s.num_cube ∧
       (EEVEE_lightprobes_cache_finish s).cube_peds = s.cube_peds.map
         (fun p => { p with need_update := true, ready_to_shade := false, probe_id := 0 }) ∧
       (EEVEE_lightprobes_cache_finish s).grid_peds = s.grid_peds ∧
       (EEVEE_lightprobes_cache_finish s).updated_bounce = s.updated_bounce ∧
       (EEVEE_lightprobes_cache_finish s).num_render_grid = s.num_render_grid) ∧
    (s.num_cube = s.cache_num_cube → EEVEE_lightprobes_cache_finish s = s) := by
  obtain ⟨uw1, wrs, nc, cnc, nrc, nrg, ub, ufc, pp, ip, irt, cpeds, gpeds⟩ := s
  dsimp only at hp hip hirt ⊢
  subst hp
  subst hip
  subst hirt
  constructor
  · intro hne
    simp [EEVEE_lightprobes_cache_finish, hne]
  · intro heq
    subst heq
    simp [EEVEE_lightprobes_cache_finish]

/-- Example state for claim C5: the cube count changed (2 against a cached 1)
while a registered grid sits mid-bake with 5 updated cells. -/
def exC5 : EState :=
  { update_world := false, world_ready_to_shade := true, num_cube := 2,
    cache_num_cube := 1, num_render_cube := 2, num_render_grid := 2,
    updated_bounce := 3, update_flag_cube := false,
    probe_pool := true, irradiance_pool := true, irradiance_rt := true,
    cube_peds := [{ need_update := false, updated_cells := 0, probe_id := 1,
                    ready_to_shade := true, num_cell := 0 }],
    grid_peds := [{ need_update := false, updated_cells := 5, probe_id := 0,
                    ready_to_shade := true, num_cell := 8 }] }

/-- Counterexample for claim C5 as stated: at exC5 the layer count changed
and the atlas is reallocated, yet the registered grid's progress counter is
not reset to zero and its dirty flag is not set in this invocation. -/
theorem claim_C5_counterexample :
    exC5.num_cube ≠ exC5.cache_num_cube ∧
    ¬ (∀ p ∈ (EEVEE_lightprobes_cache_finish exC5).grid_peds,
         p.need_update = true ∧ p.updated_cells = 0) := by
  decide

/-- Witness for claim C5 (amended) at exC5: cube-side state is invalidated
while the grid-side state is untouched. -/
theorem claim_C5_witness :
    (EEVEE_lightprobes_cache_finish exC5).num_render_cube = 0 ∧
    (EEVEE_lightprobes_cache_finish exC5).update_world = true ∧
    (EEVEE_lightprobes_cache_finish exC5).grid_peds = exC5.grid_peds ∧
    (EEVEE_lightprobes_cache_finish exC5).cube_peds = exC5.cube_peds.map
      (fun p => { p with need_update := true, ready_to_shade := false, probe_id := 0 }) := by
  have h := (claim_C5 exC5 rfl rfl rfl).1 (by decide)
  exact ⟨h.2.2.2.1, h.2.1, h.2.2.2.2.2.2.2.1, h.2.2.2.2.2.2.1⟩

/-- Claim C6 (amended): when cache_add accepts an object whose transform
changed (deg_update) or while the global world-changed flag is set, the
object's bake state is marked dirty with cell progress and probe id reset to
zero, and the scene-wide bounce counter is reset to zero on every such
dirtying (not only on the first dirtying after an atlas resize); without
either trigger the bake state (beyond the num_cell refresh) and the bounce
counter are unchanged. -/
theorem claim_C6 (maxProbe : Nat) (uw : Bool) (reg : Registry) (ob : AddObj) (ped : Ped)
    (hacc : ¬ ((ob.ptype = ProbeType.cube ∧ maxProbe ≤ reg.num_cube) ∨
               (ob.ptype = ProbeType.grid ∧ maxProbe ≤ reg.num_grid))) :
    ((ob.deg_update = true ∨ uw = true) →
       (EEVEE_lightprobes_cache_add maxProbe uw reg ob ped).2.1.need_update = true ∧
       (EEVEE_lightprobes_cache_add maxProbe uw reg ob ped).2.1.updated_cells = 0 ∧
       (EEVEE_lightprobes_cache_add maxProbe uw reg ob ped).2.1.probe_id = 0 ∧
       (EEVEE_lightprobes_cache_add maxProbe uw reg ob ped).1.updated_bounce = 0) ∧
    (ob.deg_update = false → uw = false →
       (EEVEE_lightprobes_cache_add maxProbe uw reg ob ped).2.1 =
         { ped with num_cell := ob.res_x * ob.res_y * ob.res_z } ∧
       (EEVEE_lightprobes_cache_add maxProbe uw reg ob ped).1.updated_bounce =
         reg.updated_bounce) := by
  unfold EEVEE_lightprobes_cache_add
  rw [if_neg hacc]
  constructor
  · intro hd
    cases hdeg : ob.deg_update <;> cases huw : uw <;> cases hpt : ob.ptype <;>
      simp_all
  · intro hdeg huw
    cases hpt : ob.ptype <;> simp_all

/-- Example registry for claim C6: mid-convergence (bounce 2), capacities far
from exhausted, in a session where no atlas resize has occurred. -/
def exC6Reg : Registry :=
  { num_cube := 1, num_grid := 1, cube_refs := [], grid_refs := [], updated_bounce := 2 }

/-- Example object for claim C6: a grid probe whose transform changed this
frame (deg_update set) while the world-changed flag is clear. -/
def exC6Obj : AddObj :=
  { oid := 7, ptype := ProbeType.grid, deg_update := true, res_x := 2, res_y := 2, res_z := 2 }

/-- Example engine data for claim C6. -/
def exC6Ped : Ped :=
  { need_update := false, updated_cells := 3, probe_id := 0,
    ready_to_shade := false, num_cell := 8 }

/-- Counterexample for claim C6 as stated: a transform-change dirtying in a
session with no atlas resize (so this dirtying is not the first one after a
resize, and the history proposition is False) still resets the scene-wide
bounce counter from 2 to 0, refuting the only-if direction of the claimed
equivalence. -/
theorem claim_C6_counterexample :
    ¬ cacheAddBounceResetIff 128 false exC6Reg exC6Obj exC6Ped False := by
  intro h
  unfold cacheAddBounceResetIff at h
  exact h.mp (by decide)

/-- Witness for claim C6 (amended) at the concrete dirtying: the bake state
is reset and the bounce counter is zeroed. -/
theorem claim_C6_witness :
    (EEVEE_lightprobes_cache_add 128 false exC6Reg exC6Obj exC6Ped).2.1.need_update = true ∧
    (EEVEE_lightprobes_cache_add 128 false exC6Reg exC6Obj exC6Ped).2.1.updated_cells = 0 ∧
    (EEVEE_lightprobes_cache_add 128 false exC6Reg exC6Obj exC6Ped).1.updated_bounce = 0 := by
  have h := (claim_C6 128 false exC6Reg exC6Obj exC6Ped (by decide)).1 (Or.inl (by decide))
  exact ⟨h.1, h.2.1, h.2.2.2⟩

/-- Claim C7 (amended): cache_add rejects an object — leaving the registry
and the object's bake state unchanged — exactly when its kind's count has
reached MAX_PROBE; the capacity check uses the single bound MAX_PROBE for
both kinds, not a grid-specific maximum.  Otherwise the object is appended
to its kind's ordered reference list and that kind's count is incremented by
one, the other kind being untouched.  Rejection is non-fatal (the function
returns normally). -/
theorem claim_C7 (maxProbe : Nat) (uw : Bool) (reg : Registry) (ob : AddObj) (ped : Ped) :
    ((EEVEE_lightprobes_cache_add maxProbe uw reg ob ped).2.2 = true ↔
       ((ob.ptype = ProbeType.cube ∧ maxProbe ≤ reg.num_cube) ∨
        (ob.ptype = ProbeType.grid ∧ maxProbe ≤ reg.num_grid))) ∧
    ((EEVEE_lightprobes_cache_add maxProbe uw reg ob ped).2.2 = true →
       (EEVEE_lightprobes_cache_add maxProbe uw reg ob ped).1 = reg ∧
       (EEVEE_lightprobes_cache_add maxProbe uw reg ob ped).2.1 = ped) ∧
    ((EEVEE_lightprobes_cache_add maxProbe uw reg ob ped).2.2 = false →
       (ob.ptype = ProbeType.cube →
          (EEVEE_lightprobes_cache_add maxProbe uw reg ob ped).1.cube_refs =
            reg.cube_refs ++ [ob.oid] ∧
          (EEVEE_lightprobes_cache_add maxProbe uw reg ob ped).1.num_cube =
            reg.num_cube + 1 ∧
          (EEVEE_lightprobes_cache_add maxProbe uw reg ob ped).1.grid_refs =
            reg.grid_refs ∧
          (EEVEE_lightprobes_cache_add maxProbe uw reg ob ped).1.num_grid =
            reg.num_grid) ∧
       (ob.ptype = ProbeType.grid →
          (EEVEE_lightprobes_cache_add maxProbe uw reg ob ped).1.grid_refs =
            reg.grid_refs ++ [ob.oid] ∧
          (EEVEE_lightprobes_cache_add maxProbe uw reg ob ped).1.num_grid =
            reg.num_grid + 1 ∧
          (EEVEE_lightprobes_cache_add maxProbe uw reg ob ped).1.cube_refs =
            reg.cube_refs ∧
          (EEVEE_lightprobes_cache_add maxProbe uw reg ob ped).1.num_cube =
            reg.num_cube)) := by
  unfold EEVEE_lightprobes_cache_add
  by_cases hrej : (ob.ptype = ProbeType.cube ∧ maxProbe ≤ reg.num_cube) ∨
      (ob.ptype = ProbeType.grid ∧ maxProbe ≤ reg.num_grid)
  · rw [if_pos hrej]
    refine ⟨by simp [hrej], fun _ => ⟨rfl, rfl⟩, ?_⟩
    intro hfalse
    simp at hfalse
  · rw [if_neg hrej]
    cases hdeg : ob.deg_update <;> cases huw : uw <;> cases hpt : ob.ptype <;>
      simp_all

/-- Example registry for claim C7: the grid count has reached 64 (a grid
count at the grid-specific maximum MAX_GRID = 64 of the engine headers)
while still below MAX_PROBE = 128. -/
def exC7Reg : Registry :=
  { num_cube := 1, num_grid := 64, cube_refs := [], grid_refs := [], updated_bounce := 0 }

/-- Example grid object for claim C7. -/
def exC7Obj : AddObj :=
  { oid := 9, ptype := ProbeType.grid, deg_update := false, res_x := 1, res_y := 1, res_z := 1 }

/-- Example engine data for claim C7. -/
def exC7Ped : Ped :=
  { need_update := false, updated_cells := 0, probe_id := 0,
    ready_to_shade := false, num_cell := 0 }

/-- Counterexample for claim C7 as stated, with the per-kind capacities
MAX_PROBE = 128 and MAX_GRID = 64 of the engine headers: a grid probe
arriving when the grid count is 64 is accepted by the code (the capacity
check compares the grid count against MAX_PROBE), while the claim requires
rejection at the grid maximum. -/
theorem claim_C7_counterexample :
    ¬ cacheAddRejectsPerKind 128 64 false exC7Reg exC7Obj exC7Ped := by
  unfold cacheAddRejectsPerKind
  decide

/-- Witness for claim C7 (amended): the grid at count 64 is accepted and
appended, and a grid at count 128 is rejected with everything unchanged. -/
theorem claim_C7_witness :
    (EEVEE_lightprobes_cache_add 128 false exC7Reg exC7Obj exC7Ped).1.num_grid =
      exC7Reg.num_grid + 1 ∧
    (EEVEE_lightprobes_cache_add 128 false exC7Reg exC7Obj exC7Ped).1.grid_refs =
      exC7Reg.grid_refs ++ [exC7Obj.oid] := by
  have h := ((claim_C7 128 false exC7Reg exC7Obj exC7Ped).2.2 (by decide)).2 rfl
  exact ⟨h.2.1, h.1⟩

theorem captureTrace_append (l1 l2 : List Ev) :
    captureTrace (l1 ++ l2) = captureTrace l1 ++ captureTrace l2 := by
  simp [captureTrace, List.filterMap_append]

theorem refresh_singleGrid_mid (c nc off : Nat) (hlt : c + 1 < nc) :
    EEVEE_lightprobes_refresh false (singleGridState c nc off) =
      ([Ev.swapIrradiance, Ev.gridCellCapture 1 c, Ev.diffuseFilter (off + c),
        Ev.swapIrradiance, Ev.redraw], singleGridState (c + 1) nc off) := by
  simp [EEVEE_lightprobes_refresh, bounceLoopFuel, scanGrids, gridCellStep,
    singleGridState, max_bounce, MAX_GRID, show ¬ (nc ≤ c + 1) from by omega,
    show (2 : Nat) < 3 from by omega, show (1 : Nat) < 64 from by omega]

theorem refresh_singleGrid_last (c nc off : Nat) (hend : c + 1 = nc) :
    EEVEE_lightprobes_refresh false (singleGridState c nc off) =
      ([Ev.swapIrradiance, Ev.gridCellCapture 1 c, Ev.diffuseFilter (off + c),
        Ev.swapIrradiance, Ev.redraw],
       { update_world := false, world_ready_to_shade := true, num_grid := 2,
         num_render_cube := 1, num_render_grid := 2, updated_bounce := 2,
         grids := [{ ped := { need_update := false, updated_cells := nc, probe_id := 0,
                              ready_to_shade := false, num_cell := nc }, offset := off }],
         cubes := [], swapped := false }) := by
  subst hend
  simp [EEVEE_lightprobes_refresh, bounceLoopFuel, scanGrids, gridCellStep,
    singleGridState, max_bounce, MAX_GRID, show (2 : Nat) < 3 from by omega,
    show (1 : Nat) < 64 from by omega]

theorem iterSingleGrid : ∀ k c nc off, c + k = nc → 1 ≤ k →
    captureTrace (iterRefresh false k (singleGridState c nc off)).1 =
      (List.range' c k).map (fun m => (1, m)) ∧
    (iterRefresh false k (singleGridState c nc off)).2.grids =
      [{ ped := { need_update := false, updated_cells := nc, probe_id := 0,
                  ready_to_shade := false, num_cell := nc }, offset := off }] := by
  intro k
  induction k with
  | zero => intro c nc off hsum hk; exact absurd hk (by omega)
  | succ k ih =>
    intro c nc off hsum hk
    rcases Nat.lt_or_ge (c + 1) nc with hlt | hge
    · have hk1 : 1 ≤ k := by omega
      have hrec := ih (c + 1) nc off (by omega) hk1
      simp only [iterRefresh]
      rw [refresh_singleGrid_mid c nc off hlt]
      dsimp only
      constructor
      · rw [captureTrace_append, hrec.1]
        rw [show captureTrace [Ev.swapIrradiance, Ev.gridCellCapture 1 c,
              Ev.diffuseFilter (off + c), Ev.swapIrradiance, Ev.redraw] = [(1, c)] from rfl]
        rw [show List.range' c (k + 1) = c :: List.range' (c + 1) k from rfl]
        simp
      · exact hrec.2
    · have hend : c + 1 = nc := by omega
      have hk0 : k = 0 := by omega
      subst hk0
      simp only [iterRefresh]
      rw [refresh_singleGrid_last c nc off hend]
      dsimp only
      constructor
      · rw [captureTrace_append]
        rw [show captureTrace [Ev.swapIrradiance, Ev.gridCellCapture 1 c,
              Ev.diffuseFilter (off + c), Ev.swapIrradiance, Ev.redraw] = [(1, c)] from rfl]
        simp [captureTrace, List.range']
      · rfl

/-- Claim C10: in a grid-cell bake step the captured cell index equals the
grid's updated_cells counter at entry, the counter is incremented by exactly
one and never exceeds num_cell, and the need_update flag is cleared exactly
when the incremented counter reaches num_cell; consequently, over one bounce
a dirty grid's cells are captured in increasing flattened-index order 0
through num_cell - 1, each exactly once (shown by iterating the per-frame
refresh on a single-grid state for num_cell frames). -/
theorem claim_C10 :
    (∀ gi g, g.ped.need_update = true → g.ped.updated_cells < g.ped.num_cell →
       (gridCellStep gi g).1 =
         [Ev.swapIrradiance, Ev.gridCellCapture gi g.ped.updated_cells,
          Ev.diffuseFilter (g.offset + g.ped.updated_cells), Ev.swapIrradiance, Ev.redraw] ∧
       (gridCellStep gi g).2.ped.updated_cells = g.ped.updated_cells + 1 ∧
       (gridCellStep gi g).2.ped.updated_cells ≤ g.ped.num_cell ∧
       ((gridCellStep gi g).2.ped.need_update = false ↔
          g.ped.updated_cells + 1 = g.ped.num_cell)) ∧
    (∀ nc off, 0 < nc →
       captureTrace (iterRefresh false nc (singleGridState 0 nc off)).1 =
         (List.range nc).map (fun m => (1, m)) ∧
       (iterRefresh false nc (singleGridState 0 nc off)).2.grids =
         [{ ped := { need_update := false, updated_cells := nc, probe_id := 0,
                     ready_to_shade := false, num_cell := nc }, offset := off }]) := by
  constructor
  · intro gi g hn hc
    refine ⟨rfl, rfl, ?_, ?_⟩
    · exact (by omega : g.ped.updated_cells + 1 ≤ g.ped.num_cell)
    · show (if g.ped.num_cell ≤ g.ped.updated_cells + 1 then false else g.ped.need_update) =
        false ↔ g.ped.updated_cells + 1 = g.ped.num_cell
      by_cases hle : g.ped.num_cell ≤ g.ped.updated_cells + 1
      · simp [hle]
        omega
      · simp [hle, hn]
        omega
  · intro nc off h
    have hiter := iterSingleGrid nc 0 nc off (by omega) (by omega)
    rw [List.range_eq_range']
    exact hiter

/-- Witness for claim C10 at a concrete mid-bake step and a concrete
two-cell grid iterated to convergence. -/
theorem claim_C10_witness :
    (gridCellStep 1
        { ped := { need_update := true, updated_cells := 2, probe_id := 0,
                   ready_to_shade := false, num_cell := 4 },
          offset := 3 }).2.ped.updated_cells = 3 ∧
    captureTrace (iterRefresh false 2 (singleGridState 0 2 0)).1 =
      (List.range 2).map (fun m => (1, m)) := by
  have h1 := claim_C10.1 1 ⟨⟨true, 2, 0, false, 4⟩, 3⟩ rfl (by decide)
  have h2 := claim_C10.2 2 0 (by decide)
  exact ⟨by rw [h1.2.1], h2.1⟩

end Eevee
